import Mathlib

/-!
Shallow embedding of `src/app.py` (China nightlight-radiance dashboard).

Python floats are modelled as exact rationals (`ℚ`); every concrete input
used below is exactly representable, and the per-element arithmetic of the
program (`(end - start) / start * 100`, `np.linspace` steps, `int(...)`
truncation, hex formatting) is reproduced operation by operation.  The
remote Earth-Engine calls are modelled as inputs: a `RemoteData` value
carries the sizes of the two monthly image collections and the two feature
lists that `getInfo()["features"]` would return, exactly the data the
Python code consumes after the calls.
-/

namespace Nightlights

/-- An RGB triple, as the float triples `np.linspace` interpolates in
`create_colormap` (`src/app.py` lines 47-53). -/
abbrev RGB := ℚ × ℚ × ℚ

/-- Python `int(q)` on a float: truncation toward zero. -/
def pyInt (q : ℚ) : ℤ :=
  if 0 ≤ q then ((q.num.toNat / q.den : ℕ) : ℤ) else -(((-q).num.toNat / (-q).den : ℕ) : ℤ)

/-- Python `"{:02x}".format(z)`: lowercase hexadecimal digits, zero-padded on
the left to a minimum total width of 2 (a negative number keeps its sign and
its digits already fill the width). -/
def hex02 (z : ℤ) : String :=
  if z < 0 then "-" ++ String.mk (Nat.toDigits 16 z.natAbs)
  else
    let s := String.mk (Nat.toDigits 16 z.natAbs)
    if s.length < 2 then "0" ++ s else s

/-- `np.linspace(a, b, num)` over RGB triples with the default
`endpoint=True`: `num` evenly spaced points from `a` to `b` inclusive
(`[a]` when `num = 1`, `[]` when `num = 0`). -/
def linspace3 (a b : RGB) (num : Nat) : List RGB :=
  if num = 0 then []
  else if num = 1 then [a]
  else
    (List.range num).map (fun (i : ℕ) =>
      let t : ℚ := (i : ℚ) / ((num - 1 : ℕ) : ℚ)
      (a.1 + t * (b.1 - a.1), a.2.1 + t * (b.2.1 - a.2.1), a.2.2 + t * (b.2.2 - a.2.2)))

/-- Python builtin `min` over a list of floats: `none` on an empty sequence
(where CPython raises `ValueError: min() arg is an empty sequence`). -/
def listMin : List ℚ → Option ℚ
  | [] => none
  | x :: xs => some (xs.foldl min x)

/-- Python builtin `max` over a list of floats, `none` on an empty sequence. -/
def listMax : List ℚ → Option ℚ
  | [] => none
  | x :: xs => some (xs.foldl max x)

/-- Line 52 of `src/app.py`: `(int(c[0] * 255), int(c[1] * 255), int(c[2] * 255))`
applied to one interpolated triple `c`. -/
def scaleRGB (c : RGB) : ℤ × ℤ × ℤ :=
  (pyInt (c.1 * 255), pyInt (c.2.1 * 255), pyInt (c.2.2 * 255))

/-- Line 56 of `src/app.py`: `"#{:02x}{:02x}{:02x}".format(rgb[0], rgb[1], rgb[2])`. -/
def rgbToHex (rgb : ℤ × ℤ × ℤ) : String :=
  "#" ++ hex02 rgb.1 ++ hex02 rgb.2.1 ++ hex02 rgb.2.2

/-- The color strings `create_colormap` produces for an input of length `n`:
`np.linspace` between the literal tuples `(0, 0, 255)` and `(1, 0, 0)` of
line 47, scaled by 255 channel-wise and hex-formatted. -/
def hexOfLen (n : Nat) : List String :=
  ((linspace3 (0, 0, 255) (1, 0, 0) n).map scaleRGB).map rgbToHex

/-- `create_colormap` (`src/app.py` lines 45-58).  `np.array` is the identity
on the value list; `np.interp(x, (min, max), (0, 1))` is
`(x - min) / (max - min)` for each entry (for `min = max` numpy yields a
garbage value without raising, modelled here by Lean's `q / 0 = 0`; the
normalized list is discarded except for its length either way).  Python's
builtin `min` on an empty sequence raises `ValueError`, modelled as the
`.error` branch. -/
def create_colormap (percentage_changes : List ℚ) : Except String (List String) :=
  match listMin percentage_changes, listMax percentage_changes with
  | some m, some M =>
    let norm_changes := percentage_changes.map (fun x => (x - m) / (M - m))
    let colormap_values := (linspace3 (0, 0, 255) (1, 0, 0) norm_changes.length).map scaleRGB
    .ok (colormap_values.map rgbToHex)
  | _, _ => .error "min() arg is an empty sequence"

/-- One feature of a `reduceRegions(...).getInfo()["features"]` response:
its `ADM1_NAME` property and its `properties.get("mean", None)` value. -/
structure Feature where
  adm1Name : String
  mean : Option ℚ
deriving DecidableEq

/-- One row appended to `data` in the loop of `src/app.py` lines 117-133. -/
structure Row where
  state : String
  startMean : Option ℚ
  endMean : Option ℚ
  pct : Option ℚ
deriving DecidableEq

/-- Lines 122-126 of `src/app.py`: `if start_mean_radiance and end_mean_radiance`
(Python truthiness: `None` and `0.0` are falsy) guards
`((end - start) / start) * 100`; otherwise the change is `None`. -/
def pctChange : Option ℚ → Option ℚ → Option ℚ
  | some s, some e => if s ≠ 0 ∧ e ≠ 0 then some ((e - s) / s * 100) else none
  | _, _ => none

/-- The row built from one zipped `(start_feature, end_feature)` pair
(lines 118-133 of `src/app.py`). -/
def rowOf (p : Feature × Feature) : Row :=
  { state := p.1.adm1Name
    startMean := p.1.mean
    endMean := p.2.mean
    pct := pctChange p.1.mean p.2.mean }

/-- The `data` list built by `for start_feature, end_feature in zip(...)`. -/
def buildRows (fs fe : List Feature) : List Row :=
  (fs.zip fe).map rowOf

/-- The `percentage_changes` list: each row's change appended when it is not
`None` (lines 135-136 of `src/app.py`). -/
def collectPcts (fs fe : List Feature) : List ℚ :=
  (buildRows fs fe).filterMap (fun r => r.pct)

/-- The four `(year, month)` selections read from the UI inputs
(lines 65-68 of `src/app.py`). -/
structure Params where
  start_year : Nat
  start_month : Nat
  end_year : Nat
  end_month : Nat

/-- The `geemap.Map(center=(35.0, 105.0), zoom=5)` widget of line 141,
reduced to the only arguments the code passes. -/
structure MapWidget where
  center : ℚ × ℚ
  zoom : Nat
deriving DecidableEq

/-- A pandas `DataFrame` as this program builds them: either the one-column
error table of line 90 or the four-column data table of line 144. -/
inductive DataFrame where
  | errorTable (msg : String)
  | dataTable (rows : List Row)
deriving DecidableEq

/-- What `fetch_data` returns: a bare `DataFrame` on the empty-collection
path (line 90), or a `(DataFrame, Map)` tuple on the success path (line 144). -/
inductive FetchResult where
  | single (df : DataFrame)
  | pair (df : DataFrame) (m : MapWidget)
deriving DecidableEq

/-- The remote responses `fetch_data` consumes: the two collection sizes of
line 89 and the two feature lists of lines 110-111. -/
structure RemoteData where
  sizeStart : Nat
  sizeEnd : Nat
  featuresStart : List Feature
  featuresEnd : List Feature

/-- Everything observable about one `fetch_data` run: the two date ranges
sent to the monthly image-collection queries (`ee.Filter.date` arguments of
lines 80 and 85) and the returned value (`Except.error` when the run raises). -/
structure FetchOutcome where
  startRange : String × String
  endRange : String × String
  result : Except String FetchResult

/-- Python `f"{m:02d}"` for the month selections. -/
def pad2 (n : Nat) : String :=
  if n < 10 then "0" ++ toString n else toString n

/-- `fetch_data` (`src/app.py` lines 63-144), as a function of the UI
selections and the remote responses.  The date strings are built exactly as
in lines 71-72 and 80/85; the empty-collection check, the row loop, the
`create_colormap` call (whose raised `ValueError` on an empty list
propagates) and the constant map widget follow lines 89-144. -/
def fetch_data (p : Params) (remote : RemoteData) : FetchOutcome :=
  let start_date := toString p.start_year ++ "-" ++ pad2 p.start_month ++ "-01"
  let end_date := toString p.end_year ++ "-" ++ pad2 p.end_month ++ "-01"
  let startRange := (start_date, toString p.start_year ++ "-" ++ pad2 p.start_month ++ "-28")
  let endRange := (end_date, toString p.end_year ++ "-" ++ pad2 p.end_month ++ "-28")
  let result : Except String FetchResult :=
    if remote.sizeStart = 0 ∨ remote.sizeEnd = 0 then
      .ok (.single (.errorTable "No data available for the selected months."))
    else
      let data := buildRows remote.featuresStart remote.featuresEnd
      match create_colormap (collectPcts remote.featuresStart remote.featuresEnd) with
      | .error e => .error e
      | .ok _hex_colors => .ok (.pair (.dataTable data) { center := (35, 105), zoom := 5 })
  { startRange := startRange, endRange := endRange, result := result }

/-- Iterating a pandas `DataFrame` yields its column labels; this is what
tuple unpacking of a bare `DataFrame` iterates over. -/
def dfColumns : DataFrame → List String
  | .errorTable _ => ["Error"]
  | .dataTable _ => ["State", "Start Mean Radiance", "End Mean Radiance", "Percentage Change"]

/-- A Python value as seen by the two render callbacks: a data frame, a
string (a column label obtained by unpacking a bare frame), or a map widget. -/
inductive PyVal where
  | pdf (d : DataFrame)
  | pstr (s : String)
  | pmap (m : MapWidget)
deriving DecidableEq

/-- Python `a, b = v` for `v` a `fetch_data` return value: a 2-tuple unpacks
into its components; a bare `DataFrame` is iterated, yielding its column
labels, and raises `ValueError` unless there are exactly two. -/
def unpack2 : FetchResult → Except String (PyVal × PyVal)
  | .pair d m => .ok (.pdf d, .pmap m)
  | .single d =>
    match dfColumns d with
    | [c1, c2] => .ok (.pstr c1, .pstr c2)
    | cols =>
      if cols.length < 2 then
        .error ("ValueError: not enough values to unpack (expected 2, got "
          ++ toString cols.length ++ ")")
      else .error "ValueError: too many values to unpack (expected 2)"

/-- The `table` render callback (`src/app.py` lines 151-155):
`data, _ = fetch_data()` followed by returning `data`. -/
def table (r : Except String FetchResult) : Except String PyVal :=
  match r with
  | .error e => .error e
  | .ok fr =>
    match unpack2 fr with
    | .error e => .error e
    | .ok u => .ok u.1

/-- The `map` render callback (`src/app.py` lines 157-161):
`_, Map = fetch_data()` followed by returning `Map`. -/
def map (r : Except String FetchResult) : Except String PyVal :=
  match r with
  | .error e => .error e
  | .ok fr =>
    match unpack2 fr with
    | .error e => .error e
    | .ok u => .ok u.2

/-- Decidable form of the regular expression `^#[0-9a-f]\x7b6\x7d$`. -/
def matchesHexColor (s : String) : Bool :=
  s.data.length = 7 && s.data.head? = some '#'
    && s.data.tail.all (fun c => (('0' ≤ c && c ≤ '9') || ('a' ≤ c && c ≤ 'f')))

/-- Modelled from the spec wording of claim C4: the `N` evenly spaced points
of a linear RGB interpolation from `(0, 0, 255)` (blue) to `(255, 0, 0)`
(red), each channel converted to a two-hex-digit component.  Written to be
compared against `create_colormap`, which is translated from the source. -/
def spec_colormap (n : Nat) : List String :=
  (linspace3 (0, 0, 255) (255, 0, 0) n).map
    (fun c => "#" ++ hex02 (pyInt c.1) ++ hex02 (pyInt c.2.1) ++ hex02 (pyInt c.2.2))

/-- Spec wording of claim C8: a query date range whose start is day 01 and
whose end is day 28 of the one selected year and month. -/
def spec_fixed_day_range (y m : Nat) (r : String × String) : Prop :=
  r.1 = toString y ++ "-" ++ pad2 m ++ "-01" ∧ r.2 = toString y ++ "-" ++ pad2 m ++ "-28"


lemma linspace3_length (a b : RGB) (n : Nat) : (linspace3 a b n).length = n := by
  unfold linspace3
  split_ifs with h0 h1
  · simp [h0]
  · simp [h1]
  · simp

lemma hexOfLen_length (n : Nat) : (hexOfLen n).length = n := by
  simp [hexOfLen, linspace3_length]

lemma create_colormap_cons (x : ℚ) (xs : List ℚ) :
    create_colormap (x :: xs) = .ok (hexOfLen (x :: xs).length) := by
  simp [create_colormap, listMin, listMax, hexOfLen]

lemma create_colormap_ne_nil (xs : List ℚ) (h : xs ≠ []) :
    create_colormap xs = .ok (hexOfLen xs.length) := by
  cases xs with
  | nil => exact absurd rfl h
  | cons x t => exact create_colormap_cons x t

lemma hexOfLen_two : hexOfLen 2 = ["#0000fe01", "#ff0000"] := by
  have h : linspace3 (0, 0, 255) (1, 0, 0) 2 = [(0, 0, 255), (1, 0, 0)] := by
    norm_num [linspace3, List.range_succ]
  rw [hexOfLen, h]
  norm_num [scaleRGB, pyInt, rgbToHex]
  decide

lemma hexOfLen_one : hexOfLen 1 = ["#0000fe01"] := by
  rw [hexOfLen]
  norm_num [linspace3, scaleRGB, pyInt, rgbToHex]
  decide

lemma spec_colormap_two : spec_colormap 2 = ["#0000ff", "#ff0000"] := by
  have h : linspace3 (0, 0, 255) (255, 0, 0) 2 = [(0, 0, 255), (255, 0, 0)] := by
    norm_num [linspace3, List.range_succ]
  rw [spec_colormap, h]
  norm_num [pyInt]
  decide

/-- C1: for every paired region record whose start and end mean radiance are
both present and truthy (non-null, non-zero), the computed percentage change
is exactly `(end - start) / start * 100`. -/
theorem c1_pct_change_formula (fs fe : List Feature) (r : Row) (hr : r ∈ buildRows fs fe)
    (s e : ℚ) (hs : r.startMean = some s) (he : r.endMean = some e)
    (hs0 : s ≠ 0) (he0 : e ≠ 0) :
    r.pct = some ((e - s) / s * 100) := by
  rw [buildRows] at hr
  obtain ⟨p, hp, rfl⟩ := List.mem_map.mp hr
  simp [rowOf] at hs he
  simp [rowOf, pctChange, hs, he, hs0, he0]

/-- Witness for C1 at the concrete pair of features with means 10 and 15:
the produced row has percentage change `(15 - 10) / 10 * 100`. -/
theorem c1_pct_change_formula_witness :
    rowOf (⟨"Beijing", some 10⟩, ⟨"Beijing", some 15⟩) ∈
      buildRows [⟨"Beijing", some 10⟩] [⟨"Beijing", some 15⟩] ∧
    (rowOf (⟨"Beijing", some 10⟩, ⟨"Beijing", some 15⟩)).startMean = some 10 ∧
    (rowOf (⟨"Beijing", some 10⟩, ⟨"Beijing", some 15⟩)).endMean = some 15 ∧
    (10 : ℚ) ≠ 0 ∧ (15 : ℚ) ≠ 0 ∧
    (rowOf (⟨"Beijing", some 10⟩, ⟨"Beijing", some 15⟩)).pct = some ((15 - 10) / 10 * 100) :=
  ⟨List.mem_cons_self _ _, rfl, rfl, by norm_num, by norm_num,
    c1_pct_change_formula [⟨"Beijing", some 10⟩] [⟨"Beijing", some 15⟩] _ (List.mem_cons_self _ _)
      10 15 rfl rfl (by norm_num) (by norm_num)⟩

/-- C5: `create_colormap` depends only on the length of its input: any two
input sequences of equal length yield the same colors (the normalization of
the values is computed but discarded before color generation). -/
theorem c5_depends_only_on_length (xs ys : List ℚ) (h : xs.length = ys.length) :
    create_colormap xs = create_colormap ys := by
  cases xs with
  | nil =>
    cases ys with
    | nil => rfl
    | cons y u => simp at h
  | cons x t =>
    cases ys with
    | nil => simp at h
    | cons y u => rw [create_colormap_cons, create_colormap_cons, h]

/-- Witness for C5: the equal-length inputs `[1, 2]` and `[100, -50]`
produce identical color lists. -/
theorem c5_depends_only_on_length_witness :
    ([1, 2] : List ℚ).length = ([100, -50] : List ℚ).length ∧
    create_colormap [1, 2] = create_colormap [100, -50] :=
  ⟨rfl, c5_depends_only_on_length [1, 2] [100, -50] rfl⟩

/-- C6: on every non-empty all-equal input (`xs = replicate |xs| x`, which
makes the normalization interpolate over `min = max`), `create_colormap`
does not raise and returns a defined result of the same length. -/
theorem c6_all_equal_defined (xs : List ℚ) (x : ℚ) (h1 : xs ≠ []) (_h2 : xs = List.replicate xs.length x) :
    create_colormap xs = .ok (hexOfLen xs.length) ∧ (hexOfLen xs.length).length = xs.length :=
  ⟨create_colormap_ne_nil xs h1, hexOfLen_length _⟩

/-- Witness for C6 at the single-element input `[7]` (where the
normalization has `min = max`). -/
theorem c6_all_equal_defined_witness :
    ([(7 : ℚ)] ≠ []) ∧ ([(7 : ℚ)] = List.replicate [(7 : ℚ)].length 7) ∧
    create_colormap [(7 : ℚ)] = .ok (hexOfLen [(7 : ℚ)].length) ∧
    (hexOfLen [(7 : ℚ)].length).length = [(7 : ℚ)].length :=
  ⟨by simp, rfl, (c6_all_equal_defined [(7 : ℚ)] 7 (by simp) rfl).1, (c6_all_equal_defined [(7 : ℚ)] 7 (by simp) rfl).2⟩

lemma pctChange_none_of (s e : Option ℚ)
    (h : s = none ∨ s = some 0 ∨ e = none ∨ e = some 0) : pctChange s e = none := by
  cases s with
  | none => cases e <;> rfl
  | some sv =>
    cases e with
    | none => rfl
    | some ev =>
      rcases h with h | h | h | h
      · exact Option.noConfusion h
      · rw [Option.some.inj h]
        simp [pctChange]
      · exact Option.noConfusion h
      · rw [Option.some.inj h]
        simp [pctChange]

/-- C7: every region row whose start or end mean is absent or zero gets an
absent percentage change, while the row itself is still emitted and every
row of the batch is computed independently from its own feature pair. -/
theorem c7_missing_mean_absent_change (fs fe : List Feature) (r : Row) (hr : r ∈ buildRows fs fe)
    (h : r.startMean = none ∨ r.startMean = some 0 ∨ r.endMean = none ∨ r.endMean = some 0) :
    r.pct = none ∧ buildRows fs fe = (fs.zip fe).map rowOf := by
  refine ⟨?_, rfl⟩
  rw [buildRows] at hr
  obtain ⟨p, hp, rfl⟩ := List.mem_map.mp hr
  exact pctChange_none_of p.1.mean p.2.mean h

/-- Witness for C7 at a feature pair whose start mean is absent: the row is
emitted and its percentage change is `none`. -/
theorem c7_missing_mean_absent_change_witness :
    rowOf (⟨"Tibet", none⟩, ⟨"Tibet", some 5⟩) ∈
      buildRows [⟨"Tibet", none⟩] [⟨"Tibet", some 5⟩] ∧
    (rowOf (⟨"Tibet", none⟩, ⟨"Tibet", some 5⟩)).startMean = none ∧
    (rowOf (⟨"Tibet", none⟩, ⟨"Tibet", some 5⟩)).pct = none :=
  ⟨List.mem_cons_self _ _, rfl,
    (c7_missing_mean_absent_change [⟨"Tibet", none⟩] [⟨"Tibet", some 5⟩] _ (List.mem_cons_self _ _) (Or.inl rfl)).1⟩

/-- C8: for every selection, the date strings sent to the two monthly
image-collection queries run from day 01 to day 28 of the selected start
month and of the selected end month respectively. -/
theorem c8_fixed_day_dates (p : Params) (remote : RemoteData) :
    spec_fixed_day_range p.start_year p.start_month (fetch_data p remote).startRange ∧
    spec_fixed_day_range p.end_year p.end_month (fetch_data p remote).endRange :=
  ⟨⟨rfl, rfl⟩, ⟨rfl, rfl⟩⟩

/-- C9: on the success path the returned map widget is the constant
`center = (35, 105), zoom = 5` (independent of the parameters, the fetched
data and the computed colors), and the returned table is `buildRows` of the
features alone, so the hex colors are applied to neither. -/
theorem c9_static_map_and_table (p : Params) (remote : RemoteData)
    (h1 : remote.sizeStart ≠ 0) (h2 : remote.sizeEnd ≠ 0)
    (h3 : collectPcts remote.featuresStart remote.featuresEnd ≠ []) :
    (fetch_data p remote).result =
      .ok (.pair (.dataTable (buildRows remote.featuresStart remote.featuresEnd))
        { center := (35, 105), zoom := 5 }) := by
  have hc := create_colormap_ne_nil _ h3
  simp [fetch_data, h1, h2, hc]

/-- Witness for C9 at a concrete successful run with one region. -/
theorem c9_static_map_and_table_witness :
    (1 : Nat) ≠ 0 ∧
    collectPcts [⟨"Beijing", some 10⟩] [⟨"Beijing", some 15⟩] ≠ [] ∧
    (fetch_data ⟨2024, 1, 2024, 2⟩ ⟨1, 1, [⟨"Beijing", some 10⟩], [⟨"Beijing", some 15⟩]⟩).result =
      .ok (.pair (.dataTable (buildRows [⟨"Beijing", some 10⟩] [⟨"Beijing", some 15⟩]))
        { center := (35, 105), zoom := 5 }) :=
  ⟨by norm_num,
    by
      have hcp : collectPcts [⟨"Beijing", some 10⟩] [⟨"Beijing", some 15⟩] = [50] := by
        norm_num [collectPcts, buildRows, rowOf, pctChange, List.filterMap_cons, List.filterMap_nil]
      rw [hcp]
      simp,
    c9_static_map_and_table ⟨2024, 1, 2024, 2⟩ ⟨1, 1, [⟨"Beijing", some 10⟩], [⟨"Beijing", some 15⟩]⟩
      (by norm_num) (by norm_num)
      (by
        have hcp : collectPcts [⟨"Beijing", some 10⟩] [⟨"Beijing", some 15⟩] = [50] := by
          norm_num [collectPcts, buildRows, rowOf, pctChange, List.filterMap_cons, List.filterMap_nil]
        rw [hcp]
        simp)⟩

/-- C10: when every row of a non-empty batch has an absent percentage
change, the collected list is empty, `fetch_data` still calls
`create_colormap` with it, and the `min()` of the empty sequence raises,
so the run ends in an error instead of a result. -/
theorem c10_empty_changes_raises (p : Params) (remote : RemoteData)
    (h1 : remote.sizeStart ≠ 0) (h2 : remote.sizeEnd ≠ 0)
    (_h3 : buildRows remote.featuresStart remote.featuresEnd ≠ [])
    (h4 : collectPcts remote.featuresStart remote.featuresEnd = []) :
    (fetch_data p remote).result = .error "min() arg is an empty sequence" := by
  simp [fetch_data, h1, h2, h4, create_colormap, listMin, listMax]

/-- Witness for C10 at a one-region batch whose start mean is absent. -/
theorem c10_empty_changes_raises_witness :
    (1 : Nat) ≠ 0 ∧
    buildRows [⟨"Tibet", none⟩] [⟨"Tibet", some 5⟩] ≠ [] ∧
    collectPcts [⟨"Tibet", none⟩] [⟨"Tibet", some 5⟩] = [] ∧
    (fetch_data ⟨2024, 1, 2024, 2⟩ ⟨1, 1, [⟨"Tibet", none⟩], [⟨"Tibet", some 5⟩]⟩).result =
      .error "min() arg is an empty sequence" :=
  ⟨by norm_num, by simp [buildRows], by simp [collectPcts, buildRows, rowOf, pctChange],
    c10_empty_changes_raises ⟨2024, 1, 2024, 2⟩ ⟨1, 1, [⟨"Tibet", none⟩], [⟨"Tibet", some 5⟩]⟩
      (by norm_num) (by norm_num) (by simp [buildRows])
      (by simp [collectPcts, buildRows, rowOf, pctChange])⟩

/-- C2 (code bug evaluation): with the end-month collection empty,
`fetch_data` returns the bare one-row error table and builds no map widget,
but both render callbacks then raise `ValueError` while unpacking the
single one-column `DataFrame` as a 2-tuple, so an exception does reach the
presentation layer on this path, contrary to the claim. -/
theorem c2_empty_collection_error_path :
    (fetch_data ⟨2024, 1, 2024, 2⟩ ⟨1, 0, [], []⟩).result =
      .ok (.single (.errorTable "No data available for the selected months.")) ∧
    table (fetch_data ⟨2024, 1, 2024, 2⟩ ⟨1, 0, [], []⟩).result =
      .error "ValueError: not enough values to unpack (expected 2, got 1)" ∧
    map (fetch_data ⟨2024, 1, 2024, 2⟩ ⟨1, 0, [], []⟩).result =
      .error "ValueError: not enough values to unpack (expected 2, got 1)" :=
  ⟨rfl, rfl, rfl⟩

/-- C3 (code bug evaluation): on the input `[5, 10]` the first produced
string is `"#0000fe01"`, which does not match `^#[0-9a-f]\x7b6\x7d$`:
the blue endpoint `(0, 0, 255)` is multiplied channel-wise by 255 again,
so its blue channel 65025 formats as four hex digits. -/
theorem c3_hex_string_shape :
    create_colormap [5, 10] = .ok ["#0000fe01", "#ff0000"] ∧
    matchesHexColor "#0000fe01" = false ∧ matchesHexColor "#ff0000" = true := by
  refine ⟨?_, by decide, by decide⟩
  rw [create_colormap_ne_nil [5, 10] (by simp)]
  exact congrArg Except.ok hexOfLen_two

/-- C4 (code bug evaluation): the colors are not the evenly spaced points
between `(0, 0, 255)` and `(255, 0, 0)`: on `[5, 10]` the code yields
`"#0000fe01"` where the spec-mandated interpolation (`spec_colormap`)
yields `"#0000ff"`, because the code interpolates between the mixed-scale
tuples `(0, 0, 255)` and `(1, 0, 0)` and then scales both by 255. -/
theorem c4_interpolation_endpoints :
    create_colormap [5, 10] = .ok ["#0000fe01", "#ff0000"] ∧
    spec_colormap 2 = ["#0000ff", "#ff0000"] ∧
    create_colormap [5, 10] ≠ .ok (spec_colormap 2) := by
  have hc : create_colormap [5, 10] = .ok ["#0000fe01", "#ff0000"] := by
    rw [create_colormap_ne_nil [5, 10] (by simp)]
    exact congrArg Except.ok hexOfLen_two
  refine ⟨hc, spec_colormap_two, ?_⟩
  rw [hc, spec_colormap_two]
  intro h
  injection h with h'
  exact absurd h' (by decide)

end Nightlights
